import Mathlib

/-!
Verification development for the LPC spritesheet generator API.

The development shallowly embeds the JavaScript sources:
  - `src/api/src/cache.js`   (cache key derivation, disk cache store)
  - `src/api/server.js`      (the disk -> memory -> generate resolution chain)
  - the renderer module      (`generateSpritesheet`, fixed sheet layout)
  - the admin router         (`POST /cache/generate` pre-generation batch)

Modelling conventions:
  - JS strings are `String`; layer lists are `List Layer`; `zPos` (a JS
    number used as an integer z-index) is `Int`; byte buffers are `List Nat`.
  - `JSON.stringify` of the fixed-shape objects built by the source is
    embedded as an explicit serializer producing the same character
    sequence; the node `sha256` hex digest applied on top of it in
    `generateCacheKey` is a fixed deterministic function of that string, so
    the fingerprint is modelled by the digest pre-image: equal
    serializations give equal digests, and distinct serializations are
    distinct fingerprints (collision resistance, as the spec itself
    assumes).
  - `localeCompare` (used only to sort layers by `fileName`) is embedded as
    lexicographic comparison of character code points; any total comparator
    yields the same analysis, and all concrete inputs used below are plain
    ASCII asset paths.
  - The filesystem is passed in explicitly: reads are a function
    `String -> Except String Bytes` (the error case is a rejected promise:
    ENOENT, EIO, ...), writes `String -> Bytes -> Except String Unit`, and
    a directory is an association list of file name and content.
  - The node-canvas drawing primitives are external collaborators not under
    `src/`; `overPixel` is modelled from the spec: standard source-over
    alpha compositing at 8-bit depth.
-/

namespace LPC

/-- Raw byte buffers (node `Buffer`). -/
abbrev Bytes := List Nat

/-- One layer object of a request body, as consumed by the sources:
`\x7b fileName, zPos, variant \x7d`. -/
structure Layer where
  fileName : String
  zPos : Int
  variant : String
deriving DecidableEq

/-- A character definition: request body of `/api/generate` and element of
the admin pre-generation batch. -/
structure LayerDefinition where
  bodyTypeName : String
  layers : List Layer
deriving DecidableEq

/-! ### Character-level string utilities

Core `String` order and `String.endsWith` do not reduce in the kernel, so
the embedding works on `String.data`. -/

/-- Lexicographic comparison of character code sequences; embeds the
comparator order of `localeCompare` on the ASCII asset paths the generator
uses. -/
def listLe : List Char → List Char → Bool
  | [], _ => true
  | _ :: _, [] => false
  | a :: as, b :: bs =>
    if a.toNat < b.toNat then true
    else if b.toNat < a.toNat then false
    else listLe as bs

/-- String comparison used to sort layers by `fileName`. -/
def strLe (a b : String) : Bool :=
  listLe a.data b.data

/-- Embedding of JS `String.prototype.endsWith`. -/
def strEndsWith (s suffix : String) : Bool :=
  suffix.data.isSuffixOf s.data

theorem listLe_total : ∀ as bs, listLe as bs = true ∨ listLe bs as = true
  | [], _ => Or.inl rfl
  | _ :: _, [] => Or.inr rfl
  | a :: as, b :: bs => by
    rcases Nat.lt_trichotomy a.toNat b.toNat with h | h | h
    · left; simp [listLe, h]
    · rcases listLe_total as bs with ih | ih
      · left; simp [listLe, h, ih]
      · right; simp [listLe, h.symm, ih]
    · right; simp [listLe, h]

theorem listLe_trans : ∀ as bs cs, listLe as bs = true → listLe bs cs = true →
    listLe as cs = true
  | [], _, _ => by intro _ _; rfl
  | _ :: _, [], _ => by intro h _; simp [listLe] at h
  | _ :: _, _ :: _, [] => by intro _ h; simp [listLe] at h
  | a :: as, b :: bs, c :: cs => by
    intro hab hbc
    simp only [listLe] at hab hbc ⊢
    by_cases h1 : a.toNat < b.toNat
    · by_cases h2 : b.toNat < c.toNat
      · simp [Nat.lt_trans h1 h2]
      · simp only [if_neg h2] at hbc
        by_cases h3 : c.toNat < b.toNat
        · simp [h3] at hbc
        · have hbceq : b.toNat = c.toNat := by omega
          simp [hbceq ▸ h1]
    · simp only [if_neg h1] at hab
      by_cases h4 : b.toNat < a.toNat
      · simp [h4] at hab
      · simp only [if_neg h4] at hab
        have habeq : a.toNat = b.toNat := by omega
        by_cases h2 : b.toNat < c.toNat
        · simp [habeq ▸ h2]
        · simp only [if_neg h2] at hbc
          by_cases h3 : c.toNat < b.toNat
          · simp [h3] at hbc
          · simp only [if_neg h3] at hbc
            have hac1 : ¬ a.toNat < c.toNat := by omega
            have hac2 : ¬ c.toNat < a.toNat := by omega
            simp only [if_neg hac1, if_neg hac2]
            exact listLe_trans as bs cs hab hbc

theorem listLe_antisymm : ∀ as bs, listLe as bs = true → listLe bs as = true →
    as = bs
  | [], [] => by intro _ _; rfl
  | [], _ :: _ => by intro _ h; simp [listLe] at h
  | _ :: _, [] => by intro h _; simp [listLe] at h
  | a :: as, b :: bs => by
    intro hab hba
    simp only [listLe] at hab hba
    rcases Nat.lt_trichotomy a.toNat b.toNat with h | h | h
    · simp [h, Nat.lt_asymm h] at hba
    · have ha : a = b := Char.ext (UInt32.ext (by simpa [Char.toNat] using h))
      subst ha
      simp [Nat.lt_irrefl] at hab hba
      rw [listLe_antisymm as bs hab hba]
    · simp [h, Nat.lt_asymm h] at hab

theorem strLe_total (a b : String) : strLe a b = true ∨ strLe b a = true :=
  listLe_total a.data b.data

theorem strLe_trans {a b c : String} (h1 : strLe a b = true)
    (h2 : strLe b c = true) : strLe a c = true :=
  listLe_trans a.data b.data c.data h1 h2

theorem strLe_antisymm {a b : String} (h1 : strLe a b = true)
    (h2 : strLe b a = true) : a = b :=
  String.ext (listLe_antisymm a.data b.data h1 h2)

/-! ### JSON serialization (`JSON.stringify` on the fixed request shapes) -/

/-- JSON string-content escaping for the characters that can occur in the
generator's identifiers (quote and backslash). -/
def jsonEscape (s : List Char) : List Char :=
  s.foldr (fun c acc => if c = '"' ∨ c = '\\' then '\\' :: c :: acc else c :: acc) []

/-- Serialize a JS string literal. -/
def jsonStr (s : String) : List Char :=
  '"' :: (jsonEscape s.data ++ ['"'])

/-- Decimal digit characters. -/
def digitChar (d : Nat) : Char :=
  ['0', '1', '2', '3', '4', '5', '6', '7', '8', '9'].getD d '0'

/-- Fuel-indexed decimal rendering of a natural number (structural so the
kernel can evaluate it). -/
def natCharsAux : Nat → Nat → List Char → List Char
  | 0, _, acc => acc
  | fuel + 1, n, acc =>
    if n < 10 then digitChar n :: acc
    else natCharsAux fuel (n / 10) (digitChar (n % 10) :: acc)

/-- Decimal rendering of a natural number. -/
def natChars (n : Nat) : List Char :=
  natCharsAux (n + 1) n []

/-- JS `Number.prototype.toString` on the integral z-indices the generator
uses. -/
def intChars (i : Int) : List Char :=
  if i < 0 then '-' :: natChars i.natAbs else natChars i.natAbs

/-- Serialization of one layer object:
`JSON.stringify(\x7b fileName, zPos, variant \x7d)`. -/
def jsonLayer (l : Layer) : List Char :=
  "\x7b\"fileName\":".data ++ jsonStr l.fileName ++ ",\"zPos\":".data ++
    intChars l.zPos ++ ",\"variant\":".data ++ jsonStr l.variant ++ ['\x7d']

/-- Serialization of a JSON array of layer objects. -/
def jsonLayerList : List Layer → List Char
  | [] => "[]".data
  | l :: ls =>
    '[' :: (jsonLayer l ++ (ls.foldr (fun x acc => ',' :: (jsonLayer x ++ acc)) []) ++ [']'])

/-- Serialization of `\x7b bodyTypeName, layers \x7d` — the shape hashed by
`generateCacheKey` (after sorting) and the shape used directly as the
memory-cache key in `server.js`. -/
def serializeCacheData (bodyTypeName : String) (layers : List Layer) : String :=
  String.mk ("\x7b\"bodyTypeName\":".data ++ jsonStr bodyTypeName ++
    ",\"layers\":".data ++ jsonLayerList layers ++ ['\x7d'])

/-! ### Cache Key Deriver (`generateCacheKey`, src/api/src/cache.js:9-27) -/

/-- Comparator relation of the `fileName` sort inside `generateCacheKey`
(`(a, b) => a.fileName.localeCompare(b.fileName)`). -/
def fileNameLe (a b : Layer) : Prop :=
  strLe a.fileName b.fileName = true

instance : DecidableRel fileNameLe := fun a b =>
  inferInstanceAs (Decidable (strLe a.fileName b.fileName = true))

instance : IsTotal Layer fileNameLe :=
  ⟨fun a b => strLe_total a.fileName b.fileName⟩

instance : IsTrans Layer fileNameLe :=
  ⟨fun _ _ _ => strLe_trans⟩

/-- Embedding of `generateCacheKey(bodyTypeName, layers)`: copy the layers,
stable-sort them by `fileName`, rebuild the plain
`\x7b fileName, zPos, variant \x7d` records (the identity on `Layer`),
`JSON.stringify` the canonical structure and digest it. The sha256 hex
digest is a fixed deterministic function of the serialized string, so the
fingerprint is modelled by the digest pre-image. JS array `sort` is stable
(ES2019), matching `List.insertionSort`. -/
def generateCacheKey (bodyTypeName : String) (layers : List Layer) : String :=
  serializeCacheData bodyTypeName (List.insertionSort fileNameLe layers)

/-- Embedding of `getCachePath` (cache.js:32-34): the cache file for a
fingerprint is `<cacheDir>/<hash>.png`. -/
def getCachePath (hash : String) : String :=
  String.mk ("cache/".data ++ hash.data ++ ".png".data)

/-! ### Disk Cache Store (cache.js:39-68 and 111-133) -/

/-- Result shape of `getCachedSpritesheet`. -/
structure CacheGetResult where
  buffer : Option Bytes
  hash : Option String
  hit : Bool
deriving DecidableEq

/-- Embedding of `getCachedSpritesheet` (cache.js:39-49): read the cache
file for the derived key; ANY rejection of `fs.readFile` (ENOENT as well as
I/O errors) is caught and turned into the miss result. -/
def getCachedSpritesheet (readFile : String → Except String Bytes)
    (bodyTypeName : String) (layers : List Layer) : CacheGetResult :=
  match readFile (getCachePath (generateCacheKey bodyTypeName layers)) with
  | .ok buffer =>
    { buffer := some buffer
      hash := some (generateCacheKey bodyTypeName layers)
      hit := true }
  | .error _ => { buffer := none, hash := none, hit := false }

/-- Embedding of `saveCachedSpritesheet` (cache.js:54-68): write the cache
file for the derived key and return the key; any failure (of mkdir or
writeFile, both folded into the `writeFile` collaborator here) is caught,
logged, and `null` is returned. -/
def saveCachedSpritesheet (writeFile : String → Bytes → Except String Unit)
    (bodyTypeName : String) (layers : List Layer) (buffer : Bytes) :
    Option String :=
  match writeFile (getCachePath (generateCacheKey bodyTypeName layers)) buffer with
  | .ok _ => some (generateCacheKey bodyTypeName layers)
  | .error _ => none

/-- Embedding of `fs.unlink` over a directory modelled as an association
list of file name and content. -/
def fsUnlink (dir : List (String × Bytes)) (name : String) :
    List (String × Bytes) :=
  dir.filter (fun e => e.1 != name)

/-- Result shape of `clearCache`'s success path. -/
structure ClearResult where
  success : Bool
  deletedCount : Nat
deriving DecidableEq

/-- Embedding of `clearCache` (cache.js:111-133), success path: list the
cache directory, keep the names ending in `.png`, unlink each, and report
how many were deleted. -/
def clearCache (dir : List (String × Bytes)) :
    ClearResult × List (String × Bytes) :=
  let files := dir.map Prod.fst
  let pngFiles := files.filter (fun f => strEndsWith f ".png")
  ({ success := true, deletedCount := pngFiles.length },
    pngFiles.foldl fsUnlink dir)

/-! ### Memory Cache Store and Resolution Orchestrator (server.js:102-152)

The `/api/generate` handler after its request-shape validation (the
validation belongs to the transport layer, which the spec excludes):
check the disk cache, then the in-process `NodeCache`, then render and
populate the memory cache. The write-through to disk on the generated path
is commented out in the source, so `resolve` never mutates the disk store.
The `NodeCache` TTL machinery is elided: within the TTL window the store
behaves as the plain key-value map modelled here. The handler labels the
generated tier `MISS` in its `X-Cache` header (the batch endpoint calls the
same tier `GENERATED`); the spec's tier vocabulary is used for the
provenance constructor names. -/

/-- Provenance tier of a resolution result. -/
inductive Tier where
  | diskHit
  | memoryHit
  | generated
deriving DecidableEq

/-- The in-memory `NodeCache` within one TTL window. -/
abbrev MemStore := String → Option Bytes

/-- Memory cache insertion (`cache.set`). -/
def memSet (m : MemStore) (k : String) (v : Bytes) : MemStore :=
  fun k' => if k' = k then some v else m k'

/-- The order-sensitive memory cache lookup key
`JSON.stringify(\x7b bodyTypeName, layers \x7d)` (server.js:117). -/
def serializeRequest (d : LayerDefinition) : String :=
  serializeCacheData d.bodyTypeName d.layers

/-- Embedding of the resolution chain of the `/api/generate` handler
(server.js:102-152). `render` is `generateSpritesheet` composed with
`canvas.toBuffer`, a deterministic function of the definition. Returns the
tier, the served bytes and the memory store after the request. -/
def resolve (readFile : String → Except String Bytes)
    (render : LayerDefinition → Except String Bytes)
    (mem : MemStore) (d : LayerDefinition) :
    Except String (Tier × Bytes × MemStore) :=
  match getCachedSpritesheet readFile d.bodyTypeName d.layers with
  | ⟨some buffer, _, true⟩ => .ok (.diskHit, buffer, mem)
  | _ =>
    let cacheKey := serializeRequest d
    match mem cacheKey with
    | some buffer => .ok (.memoryHit, buffer, mem)
    | none =>
      match render d with
      | .ok buffer => .ok (.generated, buffer, memSet mem cacheKey buffer)
      | .error e => .error e

/-! ### Compositing Engine (renderer module)

`generateSpritesheet(layerDefinition)` creates an 832 x 3456 canvas, sorts
the layers by `zPos` ascending (JS `sort` is stable), and for every
animation row and every sorted layer tries to load the layer's sprite for
that animation and draws it at `(0, yPos)`. A failed load is skipped
silently. Asset resolution (path construction + `loadImage`) is the spec's
opaque external collaborator: a function from `(fileName, animationName)`
to an optional image. -/

/-- An RGBA pixel with 8-bit channels. -/
structure Pixel where
  r : Nat
  g : Nat
  b : Nat
  a : Nat
deriving DecidableEq

/-- The fully transparent pixel. -/
def transparentPx : Pixel := ⟨0, 0, 0, 0⟩

/-- A loaded sprite image: dimensions plus pixel contents. -/
structure Img where
  width : Nat
  height : Nat
  pix : Nat → Nat → Pixel

/-- The canvas being composited. -/
structure Canvas where
  width : Nat
  height : Nat
  pix : Nat → Nat → Pixel

/-- The opaque asset-resolution collaborator:
`(layer fileName, animation name) -> image or not found`. -/
abbrev AssetFn := String → String → Option Img

/-- Modelled from the spec: `ctx.drawImage` composites "overlaying (not
replacing) whatever is already drawn at that region using standard alpha
compositing"; the node-canvas library implementing it is not under `src/`.
Standard source-over at 8-bit depth with exact natural division. -/
def overPixel (src dst : Pixel) : Pixel :=
  let outA := src.a + dst.a * (255 - src.a) / 255
  if outA = 0 then ⟨0, 0, 0, 0⟩
  else
    ⟨(src.r * src.a + dst.r * (dst.a * (255 - src.a) / 255)) / outA,
     (src.g * src.a + dst.g * (dst.a * (255 - src.a) / 255)) / outA,
     (src.b * src.a + dst.b * (dst.a * (255 - src.a) / 255)) / outA,
     outA⟩

/-- Embedding of `FRAME_SIZE` (constants module). -/
def FRAME_SIZE : Nat := 64

/-- Embedding of `ANIMATION_OFFSETS` (constants module), in object insertion
order as iterated by `Object.entries`. -/
def ANIMATION_OFFSETS : List (String × Nat) :=
  [("spellcast", 0), ("thrust", 4 * FRAME_SIZE), ("walk", 8 * FRAME_SIZE),
   ("slash", 12 * FRAME_SIZE), ("shoot", 16 * FRAME_SIZE),
   ("hurt", 20 * FRAME_SIZE), ("climb", 21 * FRAME_SIZE),
   ("idle", 22 * FRAME_SIZE), ("jump", 26 * FRAME_SIZE),
   ("sit", 30 * FRAME_SIZE), ("emote", 34 * FRAME_SIZE),
   ("run", 38 * FRAME_SIZE), ("combat_idle", 42 * FRAME_SIZE),
   ("backslash", 46 * FRAME_SIZE), ("halfslash", 50 * FRAME_SIZE)]

/-- Embedding of `SHEET_WIDTH` (13 frames x 64px). -/
def SHEET_WIDTH : Nat := 832

/-- Embedding of `SHEET_HEIGHT` (54 rows x 64px). -/
def SHEET_HEIGHT : Nat := 3456

/-- The blank, fully transparent canvas allocated by `createCanvas` (and
cleared again by `clearRect`). -/
def blankCanvas : Canvas :=
  ⟨SHEET_WIDTH, SHEET_HEIGHT, fun _ _ => transparentPx⟩

/-- Embedding of `ctx.drawImage(img, dx, dy)`: source-over composite the
image onto the canvas rectangle at offset `(dx, dy)`. -/
def drawImage (cv : Canvas) (img : Img) (dx dy : Nat) : Canvas :=
  { cv with
    pix := fun x y =>
      if dx ≤ x ∧ x < dx + img.width ∧ dy ≤ y ∧ y < dy + img.height then
        overPixel (img.pix (x - dx) (y - dy)) (cv.pix x y)
      else cv.pix x y }

/-- Comparator relation of the renderer's layer sort
(`(a, b) => a.zPos - b.zPos`). -/
def zPosLe (a b : Layer) : Prop :=
  a.zPos ≤ b.zPos

instance : DecidableRel zPosLe := fun a b =>
  inferInstanceAs (Decidable (a.zPos ≤ b.zPos))

instance : IsTotal Layer zPosLe := ⟨fun a b => Int.le_total a.zPos b.zPos⟩

instance : IsTrans Layer zPosLe := ⟨fun _ _ _ => Int.le_trans⟩

/-- The renderer's stable ascending sort by `zPos` (renderer line 25). -/
def sortLayers (layers : List Layer) : List Layer :=
  List.insertionSort zPosLe layers

/-- One iteration of the renderer's inner loop: try to resolve the sprite of
`l` for animation `an` and draw it at `(0, yPos)`; a failed load leaves the
canvas untouched (silent skip). -/
def drawLayerAnim (assets : AssetFn) (an : String) (yPos : Nat)
    (cv : Canvas) (l : Layer) : Canvas :=
  match assets l.fileName an with
  | some img => drawImage cv img 0 yPos
  | none => cv

/-- The renderer's inner loop: draw every sorted layer for one animation
row. -/
def drawAnimRow (assets : AssetFn) (sorted : List Layer) (cv : Canvas)
    (an : String) (yPos : Nat) : Canvas :=
  sorted.foldl (drawLayerAnim assets an yPos) cv

/-- The renderer's loop nest: for every animation row, draw every layer in
sorted order onto the blank sheet. -/
def composeSheet (assets : AssetFn) (layers : List Layer) : Canvas :=
  let sorted := sortLayers layers
  ANIMATION_OFFSETS.foldl (fun cv p => drawAnimRow assets sorted cv p.1 p.2)
    blankCanvas

/-- Embedding of `generateSpritesheet` (renderer lines 10-64). The guard is
`!bodyTypeName || !layers || !Array.isArray(layers)`: for well-typed input
only a falsy (empty) `bodyTypeName` can trip it — `layers` is always an
array here and an empty array is truthy in JS. -/
def generateSpritesheet (assets : AssetFn) (d : LayerDefinition) :
    Except String Canvas :=
  if d.bodyTypeName = "" then
    .error "Invalid layer definition: missing bodyTypeName or layers array"
  else
    .ok (composeSheet assets d.layers)

/-- The source pixel that the draw of layer `l` for animation row
`(an, yPos)` contributes at sheet coordinate `(x, y)`, if any. -/
def contribPixel (assets : AssetFn) (an : String) (yPos : Nat) (x y : Nat)
    (l : Layer) : Option Pixel :=
  match assets l.fileName an with
  | some img =>
    if 0 ≤ x ∧ x < 0 + img.width ∧ yPos ≤ y ∧ y < yPos + img.height then
      some (img.pix (x - 0) (y - yPos))
    else none
  | none => none

/-- Composite one optional contribution onto an accumulated pixel. -/
def applyContrib (p : Pixel) (o : Option Pixel) : Pixel :=
  match o with
  | some s => overPixel s p
  | none => p

/-- Decidable form of the side condition of the z-order claim: every draw
that deposits a non-transparent pixel at `(x, y)` is the draw of layer `A`
or of layer `B` for the animation row `(anim, yp)`. -/
def contribOnly (assets : AssetFn) (layers : List Layer) (anim : String)
    (yp x y : Nat) (A B : Layer) : Bool :=
  layers.all fun l => ANIMATION_OFFSETS.all fun p =>
    match contribPixel assets p.1 p.2 x y l with
    | some s =>
      decide (s.a = 0) ||
        (decide (p.1 = anim) && decide (p.2 = yp) &&
          (decide (l = A) || decide (l = B)))
    | none => true

/-! ### Administrative Cache Manager (admin router, `POST /cache/generate`)

For each definition of the batch: probe the disk cache (bypassing the
memory tier); on a hit count it `already_cached`; otherwise render, save to
the disk cache and count it `generated`; if rendering throws, record a
`failed` item and continue with the next definition. The disk store is the
finite map `String -> Option Bytes` (fault-free filesystem), read through
`readFileOf` so that `getCachedSpritesheet` is reused unchanged. -/

/-- A disk cache state: contents of the cache directory by path. -/
abbrev Disk := String → Option Bytes

/-- Read access to a `Disk` in the shape `getCachedSpritesheet` consumes
(an absent file is a rejected promise). -/
def readFileOf (disk : Disk) : String → Except String Bytes :=
  fun p =>
    match disk p with
    | some b => .ok b
    | none => .error "ENOENT"

/-- One per-item result record pushed by the pre-generation loop. -/
structure PreGenItem where
  bodyTypeName : String
  status : String
  hash : Option String
  size : Option Nat
  error : Option String
deriving DecidableEq

/-- Accumulated state of the pre-generation loop. -/
structure PreGenState where
  disk : Disk
  results : List PreGenItem
  generated : Nat
  alreadyCached : Nat
  failed : Nat

/-- One iteration of the pre-generation loop (admin router lines 102-144). -/
def preGenStep (render : LayerDefinition → Except String Bytes)
    (st : PreGenState) (d : LayerDefinition) : PreGenState :=
  let cached := getCachedSpritesheet (readFileOf st.disk) d.bodyTypeName d.layers
  if cached.hit then
    { st with
      alreadyCached := st.alreadyCached + 1
      results := st.results ++
        [{ bodyTypeName := d.bodyTypeName, status := "already_cached"
           hash := cached.hash, size := none, error := none }] }
  else
    match render d with
    | .ok buffer =>
      let hash := generateCacheKey d.bodyTypeName d.layers
      { st with
        disk := fun p => if p = getCachePath hash then some buffer else st.disk p
        generated := st.generated + 1
        results := st.results ++
          [{ bodyTypeName := d.bodyTypeName, status := "generated"
             hash := some hash, size := some buffer.length, error := none }] }
    | .error e =>
      { st with
        failed := st.failed + 1
        results := st.results ++
          [{ bodyTypeName := d.bodyTypeName, status := "failed"
             hash := none, size := none, error := some e }] }

/-- Embedding of the `POST /cache/generate` handler's loop over the batch,
starting from an empty summary. -/
def preGenerate (render : LayerDefinition → Except String Bytes)
    (defs : List LayerDefinition) (disk : Disk) : PreGenState :=
  defs.foldl (preGenStep render)
    { disk := disk, results := [], generated := 0, alreadyCached := 0, failed := 0 }

/-! ### General helper lemmas -/

theorem mem_split_last {α : Type} [DecidableEq α] {a : α} :
    ∀ {l : List α}, a ∈ l → ∃ l₁ l₂, l = l₁ ++ a :: l₂ ∧ a ∉ l₂ := by
  intro l
  induction l with
  | nil => intro h; cases h
  | cons x xs ih =>
    intro h
    by_cases hx : a ∈ xs
    · obtain ⟨l₁, l₂, heq, hnot⟩ := ih hx
      exact ⟨x :: l₁, l₂, by rw [heq]; rfl, hnot⟩
    · have hax : a = x := by
        rcases List.mem_cons.mp h with h1 | h1
        · exact h1
        · exact absurd h1 hx
      exact ⟨[], xs, by simp [hax], hx⟩

/-- Two sorted lists of layers that are permutations of each other and have
pairwise distinct file names are equal. -/
theorem sorted_perm_nodup_eq :
    ∀ xs ys : List Layer, xs.Perm ys → List.Sorted fileNameLe xs →
      List.Sorted fileNameLe ys → (xs.map Layer.fileName).Nodup → xs = ys := by
  intro xs
  induction xs with
  | nil => intro ys hp _ _ _; exact (hp.nil_eq).symm ▸ rfl
  | cons x xt ih =>
    intro ys hp hsx hsy hnd
    cases ys with
    | nil => exact absurd hp.symm.nil_eq (by simp)
    | cons y yt =>
      by_cases hxy : x = y
      · subst hxy
        have htail := hp.cons_inv
        have := ih yt htail hsx.of_cons hsy.of_cons
          (by simpa using (List.nodup_cons.mp (by simpa using hnd)).2)
        rw [this]
      · have hxys : x ∈ y :: yt := hp.mem_iff.mp (by simp)
        have hyxs : y ∈ x :: xt := hp.mem_iff.mpr (by simp)
        have hxyt : x ∈ yt := by
          rcases List.mem_cons.mp hxys with h | h
          · exact absurd h hxy
          · exact h
        have hyxt : y ∈ xt := by
          rcases List.mem_cons.mp hyxs with h | h
          · exact absurd h.symm hxy
          · exact h
        have h1 : fileNameLe x y := List.rel_of_sorted_cons hsx y hyxt
        have h2 : fileNameLe y x := List.rel_of_sorted_cons hsy x hxyt
        have heqf : x.fileName = y.fileName := strLe_antisymm h1 h2
        exfalso
        have : x.fileName ∉ (xt.map Layer.fileName) :=
          (List.nodup_cons.mp (by simpa using hnd)).1
        exact this (heqf ▸ List.mem_map_of_mem Layer.fileName hyxt)

/-- Permutations with pairwise distinct file names have the same
`fileName`-sorted form. -/
theorem insertionSort_fileName_perm_eq {l₁ l₂ : List Layer}
    (hp : l₁.Perm l₂) (hnd : (l₁.map Layer.fileName).Nodup) :
    List.insertionSort fileNameLe l₁ = List.insertionSort fileNameLe l₂ := by
  refine sorted_perm_nodup_eq _ _ ?_ ?_ ?_ ?_
  · exact (List.perm_insertionSort fileNameLe l₁).trans
      (hp.trans (List.perm_insertionSort fileNameLe l₂).symm)
  · exact List.sorted_insertionSort fileNameLe l₁
  · exact List.sorted_insertionSort fileNameLe l₂
  · exact ((List.perm_insertionSort fileNameLe l₁).map Layer.fileName).nodup_iff.mpr hnd

/-- The fingerprint is invariant under permutations whose layers carry
pairwise distinct file names. -/
theorem generateCacheKey_perm_of_nodup (btn : String) {l₁ l₂ : List Layer}
    (hp : l₁.Perm l₂) (hnd : (l₁.map Layer.fileName).Nodup) :
    generateCacheKey btn l₁ = generateCacheKey btn l₂ := by
  unfold generateCacheKey
  rw [insertionSort_fileName_perm_eq hp hnd]

/-! ### Pixel-level helper lemmas for the compositing engine -/

/-- An opaque source pixel replaces the destination under source-over. -/
theorem overPixel_opaque {src dst : Pixel} (h : src.a = 255) :
    overPixel src dst = src := by
  cases src with
  | mk r g b a =>
    simp only [Pixel.a] at h
    subst h
    unfold overPixel
    norm_num

/-- A fully transparent source pixel leaves an opaque destination unchanged
under source-over. -/
theorem overPixel_transparent {src dst : Pixel} (hs : src.a = 0)
    (hd : dst.a = 255) : overPixel src dst = dst := by
  cases src with
  | mk r g b a =>
    cases dst with
    | mk r2 g2 b2 a2 =>
      simp only [Pixel.a] at hs hd
      subst hs
      subst hd
      unfold overPixel
      norm_num

/-- Pointwise description of one inner-loop draw. -/
theorem drawLayerAnim_pix (assets : AssetFn) (an : String) (yPos : Nat)
    (cv : Canvas) (l : Layer) (x y : Nat) :
    (drawLayerAnim assets an yPos cv l).pix x y =
      applyContrib (cv.pix x y) (contribPixel assets an yPos x y l) := by
  unfold drawLayerAnim contribPixel applyContrib
  cases assets l.fileName an with
  | none => rfl
  | some img =>
    simp only [drawImage]
    by_cases hc : 0 ≤ x ∧ x < 0 + img.width ∧ yPos ≤ y ∧ y < yPos + img.height
    · rw [if_pos hc, if_pos hc]
    · rw [if_neg hc, if_neg hc]

/-- Draws do not change the canvas dimensions. -/
theorem drawLayerAnim_dims (assets : AssetFn) (an : String) (yPos : Nat)
    (cv : Canvas) (l : Layer) :
    (drawLayerAnim assets an yPos cv l).width = cv.width ∧
      (drawLayerAnim assets an yPos cv l).height = cv.height := by
  unfold drawLayerAnim drawImage
  cases assets l.fileName an <;> exact ⟨rfl, rfl⟩

theorem foldl_drawLayerAnim_dims (assets : AssetFn) (an : String) (yPos : Nat) :
    ∀ (ls : List Layer) (cv : Canvas),
      (ls.foldl (drawLayerAnim assets an yPos) cv).width = cv.width ∧
        (ls.foldl (drawLayerAnim assets an yPos) cv).height = cv.height := by
  intro ls
  induction ls with
  | nil => intro cv; exact ⟨rfl, rfl⟩
  | cons l lt ih =>
    intro cv
    have hd := drawLayerAnim_dims assets an yPos cv l
    have := ih (drawLayerAnim assets an yPos cv l)
    exact ⟨this.1.trans hd.1, this.2.trans hd.2⟩

theorem composeSheet_dims (assets : AssetFn) (layers : List Layer) :
    (composeSheet assets layers).width = SHEET_WIDTH ∧
      (composeSheet assets layers).height = SHEET_HEIGHT := by
  unfold composeSheet
  generalize sortLayers layers = sorted
  have main : ∀ (anims : List (String × Nat)) (cv : Canvas),
      (anims.foldl (fun c p => drawAnimRow assets sorted c p.1 p.2) cv).width = cv.width ∧
        (anims.foldl (fun c p => drawAnimRow assets sorted c p.1 p.2) cv).height = cv.height := by
    intro anims
    induction anims with
    | nil => intro cv; exact ⟨rfl, rfl⟩
    | cons p pt ih =>
      intro cv
      have hrow := foldl_drawLayerAnim_dims assets p.1 p.2 sorted cv
      have := ih (drawAnimRow assets sorted cv p.1 p.2)
      exact ⟨this.1.trans hrow.1, this.2.trans hrow.2⟩
  exact main ANIMATION_OFFSETS blankCanvas

/-- Pointwise description of one animation row's fold. -/
theorem foldl_drawLayerAnim_pix (assets : AssetFn) (an : String) (yPos : Nat)
    (x y : Nat) :
    ∀ (ls : List Layer) (cv : Canvas),
      (ls.foldl (drawLayerAnim assets an yPos) cv).pix x y =
        (ls.map (contribPixel assets an yPos x y)).foldl applyContrib (cv.pix x y) := by
  intro ls
  induction ls with
  | nil => intro cv; rfl
  | cons l lt ih =>
    intro cv
    simp only [List.foldl_cons, List.map_cons]
    rw [ih, drawLayerAnim_pix]

/-- The list of optional source-pixel contributions deposited at `(x, y)`
over the whole loop nest, in draw order. -/
def allContribs (assets : AssetFn) (layers : List Layer) (x y : Nat) :
    List (Option Pixel) :=
  (ANIMATION_OFFSETS.map (fun p =>
    (sortLayers layers).map (contribPixel assets p.1 p.2 x y))).flatten

/-- Pointwise characterization of the composited sheet: the pixel at
`(x, y)` is the fold of source-over across the contributions in draw
order, starting from transparency. -/
theorem composeSheet_pix (assets : AssetFn) (layers : List Layer) (x y : Nat) :
    (composeSheet assets layers).pix x y =
      (allContribs assets layers x y).foldl applyContrib transparentPx := by
  unfold composeSheet allContribs
  have main : ∀ (anims : List (String × Nat)) (cv : Canvas),
      (anims.foldl (fun c p => drawAnimRow assets (sortLayers layers) c p.1 p.2) cv).pix x y =
        ((anims.map (fun p => (sortLayers layers).map (contribPixel assets p.1 p.2 x y))).flatten).foldl
          applyContrib (cv.pix x y) := by
    intro anims
    induction anims with
    | nil => intro cv; rfl
    | cons p pt ih =>
      intro cv
      simp only [List.foldl_cons, List.map_cons, List.flatten_cons, List.foldl_append]
      rw [ih, drawAnimRow, foldl_drawLayerAnim_pix]
  exact main ANIMATION_OFFSETS blankCanvas

/-- Folding contributions that are all absent or fully transparent over an
opaque pixel leaves it unchanged. -/
theorem foldl_applyContrib_transparent :
    ∀ (l : List (Option Pixel)) (b : Pixel), b.a = 255 →
      (∀ o ∈ l, ∀ s, o = some s → s.a = 0) → l.foldl applyContrib b = b := by
  intro l
  induction l with
  | nil => intro b _ _; rfl
  | cons o ot ih =>
    intro b hb ht
    simp only [List.foldl_cons]
    have hstep : applyContrib b o = b := by
      cases o with
      | none => rfl
      | some s =>
        have hs : s.a = 0 := ht (some s) (by simp) s rfl
        exact overPixel_transparent hs hb
    rw [hstep]
    exact ih b hb (fun o ho s hs => ht o (by simp [ho]) s hs)

/-- In a contribution sequence whose tail after some opaque contribution
`b` is entirely transparent, the fold ends at exactly `b`. -/
theorem foldl_applyContrib_opaque_last (l₁ l₂ : List (Option Pixel))
    (b : Pixel) (init : Pixel) (hb : b.a = 255)
    (ht : ∀ o ∈ l₂, ∀ s, o = some s → s.a = 0) :
    (l₁ ++ some b :: l₂).foldl applyContrib init = b := by
  rw [List.foldl_append]
  simp only [List.foldl_cons]
  have : applyContrib (l₁.foldl applyContrib init) (some b) = b :=
    overPixel_opaque hb
  rw [this]
  exact foldl_applyContrib_transparent l₂ b hb ht

/-- Decoding of the decidable z-order side condition. -/
theorem contribOnly_spec {assets : AssetFn} {layers : List Layer}
    {anim : String} {yp x y : Nat} {A B : Layer}
    (h : contribOnly assets layers anim yp x y A B = true) :
    ∀ l ∈ layers, ∀ p ∈ ANIMATION_OFFSETS, ∀ s,
      contribPixel assets p.1 p.2 x y l = some s → s.a ≠ 0 →
        p.1 = anim ∧ p.2 = yp ∧ (l = A ∨ l = B) := by
  intro l hl p hp s hs ha
  unfold contribOnly at h
  rw [List.all_eq_true] at h
  have h1 := h l hl
  rw [List.all_eq_true] at h1
  have h2 := h1 p hp
  rw [hs] at h2
  simp only [Bool.or_eq_true, Bool.and_eq_true, decide_eq_true_eq] at h2
  rcases h2 with h2 | h2
  · exact absurd h2 ha
  · exact ⟨h2.1.1, h2.1.2, h2.2⟩

/-- Each pre-generation iteration increments exactly one of the three
counters and appends exactly one per-item result. -/
theorem preGen_counts (render : LayerDefinition → Except String Bytes) :
    ∀ (defs : List LayerDefinition) (st : PreGenState),
      (defs.foldl (preGenStep render) st).alreadyCached +
          (defs.foldl (preGenStep render) st).generated +
          (defs.foldl (preGenStep render) st).failed =
        st.alreadyCached + st.generated + st.failed + defs.length ∧
      (defs.foldl (preGenStep render) st).results.length =
        st.results.length + defs.length := by
  intro defs
  induction defs with
  | nil => intro st; simp
  | cons d ds ih =>
    intro st
    simp only [List.foldl_cons, List.length_cons]
    obtain ⟨ha, hb⟩ := ih (preGenStep render st d)
    have hstep :
        (preGenStep render st d).alreadyCached + (preGenStep render st d).generated +
            (preGenStep render st d).failed =
          st.alreadyCached + st.generated + st.failed + 1 ∧
        (preGenStep render st d).results.length = st.results.length + 1 := by
      unfold preGenStep
      by_cases hhit : (getCachedSpritesheet (readFileOf st.disk) d.bodyTypeName d.layers).hit
      · simp [hhit]
        omega
      · simp only [hhit, if_false, Bool.false_eq_true]
        cases render d with
        | ok buffer => simp; omega
        | error e => simp; omega
    omega

/-- Unlinking a list of names from a directory keeps exactly the entries
whose name is not listed. -/
theorem foldl_fsUnlink :
    ∀ (names : List String) (dir : List (String × Bytes)),
      names.foldl fsUnlink dir = dir.filter (fun e => !(names.contains e.1)) := by
  intro names
  induction names with
  | nil =>
    intro dir
    simp [List.filter_true]
  | cons n ns ih =>
    intro dir
    simp only [List.foldl_cons]
    rw [ih]
    unfold fsUnlink
    rw [List.filter_filter]
    congr 1
    funext e
    simp only [List.contains_cons, Bool.not_or]
    rw [Bool.and_comm]
    rfl

/-- Folding absent contributions changes nothing. -/
theorem foldl_applyContrib_none :
    ∀ (l : List (Option Pixel)) (init : Pixel),
      (∀ o ∈ l, o = none) → l.foldl applyContrib init = init := by
  intro l
  induction l with
  | nil => intro init _; rfl
  | cons o ot ih =>
    intro init h
    have ho : o = none := h o (by simp)
    subst ho
    exact ih init (fun o ho => h o (by simp [ho]))

/-- Validity of a definition in the sense of the spec's render
preconditions (the zOrder-is-numeric part is enforced by typing). -/
def validDefinition (d : LayerDefinition) : Prop :=
  d.bodyTypeName ≠ "" ∧ d.layers ≠ [] ∧ ∀ l ∈ d.layers, l.fileName ≠ ""

instance (d : LayerDefinition) : Decidable (validDefinition d) := by
  unfold validDefinition
  infer_instance

/-! ### Concrete fixtures for witnesses and counterexamples -/

/-- Two distinct layers sharing one `fileName`. -/
def dupA : Layer := ⟨"body/a.png", 1, "x"⟩

/-- Second layer with the same `fileName` as `dupA`. -/
def dupB : Layer := ⟨"body/a.png", 2, "y"⟩

/-- Two further distinct layers sharing one `fileName`. -/
def dupC : Layer := ⟨"hair/b.png", 5, "p"⟩

/-- Second layer with the same `fileName` as `dupC`. -/
def dupD : Layer := ⟨"hair/b.png", 6, "q"⟩

/-- A typical body layer. -/
def lightBody : Layer := ⟨"body/bodies/male/light.png", 10, "light"⟩

/-- A typical hair layer. -/
def brownHair : Layer := ⟨"hair/male/short/brown.png", 120, "brown"⟩

/-- The asset-resolution function on which every lookup misses. -/
def noAssets : AssetFn := fun _ _ => none

/-! ### Claims -/

set_option maxRecDepth 40000 in
/-- C1, counterexample: `generateCacheKey` is NOT invariant under every
permutation of the layer list. The sort inside it orders by `fileName`
alone and is stable, so two layers sharing a `fileName` keep their input
order: swapping `dupA` and `dupB` (same `fileName`, different `zPos` and
`variant`) permutes the list but changes the canonical serialization and
hence the fingerprint. -/
theorem c1_counterexample :
    ([dupA, dupB] : List Layer).Perm [dupB, dupA] ∧
      generateCacheKey "male" [dupA, dupB] ≠ generateCacheKey "male" [dupB, dupA] := by
  constructor
  · decide
  · decide

/-- C1 (amended): for every `bodyTypeTag` and every two layer lists that
are permutations of each other, if the layers carry pairwise distinct
identifiers (`fileName`s) — the intended use, one asset family per layer —
then `generateCacheKey` returns the same fingerprint. -/
theorem c1_fingerprint_perm_invariant (btn : String) (l₁ l₂ : List Layer)
    (hp : l₁.Perm l₂) (hnd : (l₁.map Layer.fileName).Nodup) :
    generateCacheKey btn l₁ = generateCacheKey btn l₂ :=
  generateCacheKey_perm_of_nodup btn hp hnd

set_option maxRecDepth 40000 in
/-- C1, witness: the amended invariance at the spec's own concrete
scenario (body plus hair, swapped input order). -/
theorem c1_witness :
    ([lightBody, brownHair] : List Layer).Perm [brownHair, lightBody] ∧
      (([lightBody, brownHair] : List Layer).map Layer.fileName).Nodup ∧
      generateCacheKey "male" [lightBody, brownHair] =
        generateCacheKey "male" [brownHair, lightBody] :=
  ⟨by decide, by decide,
    c1_fingerprint_perm_invariant "male" [lightBody, brownHair]
      [brownHair, lightBody] (by decide) (by decide)⟩

/-- C3, counterexample: `generateSpritesheet` does NOT fail on an empty
layers list — an empty array is truthy in JS, so the guard passes and the
renderer returns the blank sheet. -/
theorem c3_counterexample :
    ∃ cv, generateSpritesheet noAssets ⟨"male", []⟩ = .ok cv :=
  ⟨composeSheet noAssets [], rfl⟩

/-- C3 (amended): `generateSpritesheet` fails (with its single
invalid-definition error) exactly when `bodyTypeName` is empty (the falsy
case of `!bodyTypeName`; the `!layers || !Array.isArray(layers)` disjuncts
concern ill-typed input that a well-typed embedding cannot represent). An
empty layers list, an empty per-layer identifier or any `zPos` are NOT
rejected by the engine — those checks live in the HTTP handler's request
validation. -/
theorem c3_render_error_iff (assets : AssetFn) (d : LayerDefinition) :
    (∃ e, generateSpritesheet assets d = .error e) ↔ d.bodyTypeName = "" := by
  unfold generateSpritesheet
  by_cases h : d.bodyTypeName = ""
  · simp [h]
  · simp [h]

/-- C3, witness: the amended criterion applied at an empty body type tag. -/
theorem c3_witness :
    ∃ e, generateSpritesheet noAssets ⟨"", [lightBody]⟩ = .error e :=
  (c3_render_error_iff noAssets ⟨"", [lightBody]⟩).mpr rfl

set_option maxRecDepth 40000 in
/-- C5, counterexample: the claim's universally quantified part — that
reordering the layers of EVERY definition leaves the fingerprint
unchanged — fails: with two layers sharing a `fileName`, swapping them is
a reordering that changes the fingerprint (same stable-sort tie effect as
in the key deriver analysis). -/
theorem c5_counterexample :
    ([dupC, dupD] : List Layer).Perm [dupD, dupC] ∧
      generateCacheKey "female" [dupC, dupD] ≠
        generateCacheKey "female" [dupD, dupC] := by
  constructor
  · decide
  · decide

set_option maxRecDepth 40000 in
/-- C5 (amended): the memory-tier lookup key is the order-sensitive
serialization of the full request (`JSON.stringify(\x7b bodyTypeName,
layers \x7d)` on the layers in input order), not the canonical
fingerprint. For definitions whose layers carry pairwise distinct
`fileName`s, reordering the layers leaves the fingerprint unchanged, and
there are such definitions where a reordering changes the memory lookup
key, so the reordered logically-equivalent request misses a memory store
holding the original's entry while both orders share one disk fingerprint.
(With duplicate `fileName`s even the fingerprint can change, per the
counterexample.) -/
theorem c5_memory_key_order_sensitivity :
    (∀ d : LayerDefinition,
      serializeRequest d = serializeCacheData d.bodyTypeName d.layers) ∧
    (∀ (btn : String) (l₁ l₂ : List Layer), l₁.Perm l₂ →
      (l₁.map Layer.fileName).Nodup →
      generateCacheKey btn l₁ = generateCacheKey btn l₂) ∧
    (∃ d₁ d₂ : LayerDefinition, d₁.bodyTypeName = d₂.bodyTypeName ∧
      d₁.layers.Perm d₂.layers ∧
      generateCacheKey d₁.bodyTypeName d₁.layers =
        generateCacheKey d₂.bodyTypeName d₂.layers ∧
      serializeRequest d₁ ≠ serializeRequest d₂ ∧
      ∀ buffer : Bytes,
        memSet (fun _ => none) (serializeRequest d₁) buffer
          (serializeRequest d₂) = none) := by
  refine ⟨fun _ => rfl, fun btn l₁ l₂ hp hnd => generateCacheKey_perm_of_nodup btn hp hnd, ?_⟩
  refine ⟨⟨"male", [lightBody, brownHair]⟩, ⟨"male", [brownHair, lightBody]⟩,
    rfl, by decide, by decide, by decide, ?_⟩
  intro buffer
  unfold memSet
  rw [if_neg (by decide)]

set_option maxRecDepth 40000 in
/-- C5, witness: the amended statement's universal part applied at the
spec's concrete body-plus-hair scenario. -/
theorem c5_witness :
    generateCacheKey "male" [lightBody, brownHair] =
      generateCacheKey "male" [brownHair, lightBody] :=
  c5_memory_key_order_sensitivity.2.1 "male" [lightBody, brownHair]
    [brownHair, lightBody] (by decide) (by decide)

/-- C6, counterexample: a read I/O error is NOT surfaced — the catch-all in
`getCachedSpritesheet` returns the very same miss record an absent entry
produces, and a write error makes `saveCachedSpritesheet` return `null`
instead of raising. -/
theorem c6_counterexample :
    getCachedSpritesheet (fun _ => .error "EIO: input/output error") "male"
        [lightBody] = { buffer := none, hash := none, hit := false } ∧
      getCachedSpritesheet (fun _ => .error "EIO: input/output error") "male"
          [lightBody] =
        getCachedSpritesheet (fun _ => .error "ENOENT") "male" [lightBody] ∧
      saveCachedSpritesheet (fun _ _ => .error "EIO: input/output error")
          "male" [lightBody] [1, 2] = none :=
  ⟨rfl, rfl, rfl⟩

/-- C6 (amended): a storage-medium error during a disk-cache read is
silently converted into the ordinary miss result (`hit: false`, no error
information, indistinguishable from an absent entry), and a
storage-medium error during a disk-cache write is caught, logged and
reported as a `null` key rather than an error; neither operation retries
or propagates the failure to its caller. -/
theorem c6_storage_error_swallowed
    (readFile : String → Except String Bytes)
    (writeFile : String → Bytes → Except String Unit)
    (btn : String) (layers : List Layer) (buffer : Bytes) (e₁ e₂ : String)
    (hr : readFile (getCachePath (generateCacheKey btn layers)) = .error e₁)
    (hw : writeFile (getCachePath (generateCacheKey btn layers)) buffer = .error e₂) :
    getCachedSpritesheet readFile btn layers =
        { buffer := none, hash := none, hit := false } ∧
      saveCachedSpritesheet writeFile btn layers buffer = none := by
  unfold getCachedSpritesheet saveCachedSpritesheet
  rw [hr, hw]
  exact ⟨rfl, rfl⟩

/-- C6, witness: the amended behavior at a concrete failing filesystem. -/
theorem c6_witness :
    getCachedSpritesheet (fun _ => .error "EIO") "female" [brownHair] =
        { buffer := none, hash := none, hit := false } ∧
      saveCachedSpritesheet (fun _ _ => .error "ENOSPC") "female" [brownHair]
        [9] = none :=
  c6_storage_error_swallowed (fun _ => .error "EIO")
    (fun _ _ => .error "ENOSPC") "female" [brownHair] [9] "EIO" "ENOSPC" rfl rfl

/-- C10 (confirmed): `clearCache` deletes exactly the entries of the cache
directory whose name ends in `.png`, reports their number as
`deletedCount` (with `success`), and leaves every other file untouched. -/
theorem c10_clear_cache_exact (dir : List (String × Bytes)) :
    (clearCache dir).1 =
        { success := true
          deletedCount := (dir.filter (fun e => strEndsWith e.1 ".png")).length } ∧
      (clearCache dir).2 = dir.filter (fun e => !(strEndsWith e.1 ".png")) := by
  unfold clearCache
  constructor
  · simp only [ClearResult.mk.injEq, true_and]
    rw [List.filter_map]
    rw [List.length_map]
    rfl
  · simp only []
    rw [foldl_fsUnlink]
    apply List.filter_congr
    intro e he
    by_cases hp : strEndsWith e.1 ".png" = true
    · have hmem : e.1 ∈ (dir.map Prod.fst).filter (fun f => strEndsWith f ".png") :=
        List.mem_filter.mpr ⟨List.mem_map_of_mem Prod.fst he, hp⟩
      have hc : ((dir.map Prod.fst).filter
          (fun f => strEndsWith f ".png")).contains e.1 = true :=
        List.elem_eq_true_of_mem hmem
      rw [hp, hc]
    · have hb : strEndsWith e.1 ".png" = false := by
        cases h : strEndsWith e.1 ".png"
        · rfl
        · exact absurd h hp
      rw [hb]
      have hnot : ((dir.map Prod.fst).filter
          (fun f => strEndsWith f ".png")).contains e.1 = false := by
        cases hc : ((dir.map Prod.fst).filter
            (fun f => strEndsWith f ".png")).contains e.1
        · rfl
        · exact absurd ((List.mem_filter.mp (List.mem_of_elem_eq_true hc)).2) hp
      rw [hnot]

/-- Behavior of the resolution chain below a disk miss: memory lookup,
then generation populating the memory store. -/
theorem resolve_of_disk_miss (readFile : String → Except String Bytes)
    (render : LayerDefinition → Except String Bytes) (mem : MemStore)
    (d : LayerDefinition) (e₀ : String)
    (hdisk : readFile (getCachePath (generateCacheKey d.bodyTypeName d.layers)) =
      .error e₀) :
    resolve readFile render mem d =
      match mem (serializeRequest d) with
      | some buffer => .ok (.memoryHit, buffer, mem)
      | none =>
        match render d with
        | .ok buffer =>
          .ok (.generated, buffer, memSet mem (serializeRequest d) buffer)
        | .error e => .error e := by
  unfold resolve getCachedSpritesheet
  rw [hdisk]

/-- C2 (confirmed): whenever the disk cache holds an entry for the
definition's fingerprint, `resolve` returns exactly that entry with tier
`DISK_HIT`: the result and the returned memory store are the same for
every memory-store content (the memory tier is not consulted, and holding
a stale entry for the same definition changes nothing) and for every
renderer (the compositing engine is not invoked). -/
theorem c2_disk_hit_precedence (readFile : String → Except String Bytes)
    (render : LayerDefinition → Except String Bytes) (mem : MemStore)
    (d : LayerDefinition) (buffer : Bytes)
    (hdisk : readFile (getCachePath (generateCacheKey d.bodyTypeName d.layers)) =
      .ok buffer) :
    resolve readFile render mem d = .ok (.diskHit, buffer, mem) := by
  unfold resolve getCachedSpritesheet
  rw [hdisk]

/-- A filesystem whose only readable entry is the cache file of the
definition `male + lightBody`. -/
def diskOnlyFs : String → Except String Bytes := fun p =>
  if p = getCachePath (generateCacheKey "male" [lightBody]) then .ok [3, 1, 4]
  else .error "ENOENT"

/-- C2, witness: disk hit takes precedence at a concrete store whose
memory tier DOES hold a (different, stale) entry for the same request, and
whose renderer would fail if it were invoked. -/
theorem c2_witness :
    resolve diskOnlyFs (fun _ => .error "renderer must not run")
        (memSet (fun _ => none) (serializeRequest ⟨"male", [lightBody]⟩) [9, 9])
        ⟨"male", [lightBody]⟩ =
      .ok (.diskHit, [3, 1, 4],
        memSet (fun _ => none) (serializeRequest ⟨"male", [lightBody]⟩) [9, 9]) :=
  c2_disk_hit_precedence diskOnlyFs (fun _ => .error "renderer must not run")
    (memSet (fun _ => none) (serializeRequest ⟨"male", [lightBody]⟩) [9, 9])
    ⟨"male", [lightBody]⟩ [3, 1, 4]
    (by unfold diskOnlyFs; rw [if_pos rfl])

/-- C7 (confirmed): on a definition absent from both tiers (the disk read
rejects, the memory store has no entry under the request's lookup key),
two successive `resolve` calls with no interference in between yield tier
`GENERATED` and then tier `MEMORY_HIT` — the generated path never writes
to disk (the write-through is commented out in the source), the first call
populates the memory store, and both calls serve the byte-identical
payload `buffer`. (The `NodeCache` TTL is elided, so the second call lies
within the TTL window; the single-generate handler labels this first tier
`MISS` in its `X-Cache` header, the spec's name for it is `GENERATED`.) -/
theorem c7_generate_then_memory_hit (readFile : String → Except String Bytes)
    (render : LayerDefinition → Except String Bytes) (mem : MemStore)
    (d : LayerDefinition) (buffer : Bytes) (e₀ : String)
    (hdisk : readFile (getCachePath (generateCacheKey d.bodyTypeName d.layers)) =
      .error e₀)
    (hmem : mem (serializeRequest d) = none)
    (hrender : render d = .ok buffer) :
    resolve readFile render mem d =
        .ok (.generated, buffer, memSet mem (serializeRequest d) buffer) ∧
      resolve readFile render (memSet mem (serializeRequest d) buffer) d =
        .ok (.memoryHit, buffer, memSet mem (serializeRequest d) buffer) := by
  constructor
  · rw [resolve_of_disk_miss readFile render mem d e₀ hdisk, hmem, hrender]
  · rw [resolve_of_disk_miss readFile render (memSet mem (serializeRequest d) buffer)
      d e₀ hdisk]
    have hhit : memSet mem (serializeRequest d) buffer (serializeRequest d) =
        some buffer := by
      unfold memSet
      rw [if_pos rfl]
    rw [hhit]

/-- C7, witness: the generate-then-memory-hit pair at a concrete empty
cache state. -/
theorem c7_witness :
    resolve (fun _ => .error "ENOENT") (fun _ => .ok [7, 7]) (fun _ => none)
        ⟨"male", [brownHair]⟩ =
        .ok (.generated, [7, 7],
          memSet (fun _ => none) (serializeRequest ⟨"male", [brownHair]⟩) [7, 7]) ∧
      resolve (fun _ => .error "ENOENT") (fun _ => .ok [7, 7])
          (memSet (fun _ => none) (serializeRequest ⟨"male", [brownHair]⟩) [7, 7])
          ⟨"male", [brownHair]⟩ =
        .ok (.memoryHit, [7, 7],
          memSet (fun _ => none) (serializeRequest ⟨"male", [brownHair]⟩) [7, 7]) :=
  c7_generate_then_memory_hit (fun _ => .error "ENOENT") (fun _ => .ok [7, 7])
    (fun _ => none) ⟨"male", [brownHair]⟩ [7, 7] "ENOENT" rfl rfl rfl

/-- C4 (confirmed): for every definition meeting the spec's render
preconditions, `generateSpritesheet` succeeds with a canvas of exactly the
fixed sheet dimensions (832 x 3456) no matter which asset lookups succeed,
and when every asset lookup misses the result is the fully transparent
sheet rather than an error. -/
theorem c4_dimension_invariance (assets : AssetFn) (d : LayerDefinition)
    (hv : validDefinition d) :
    ∃ cv, generateSpritesheet assets d = .ok cv ∧ cv.width = SHEET_WIDTH ∧
      cv.height = SHEET_HEIGHT ∧
      ((∀ fn an, assets fn an = none) → ∀ x y, cv.pix x y = transparentPx) := by
  refine ⟨composeSheet assets d.layers, ?_, (composeSheet_dims assets d.layers).1,
    (composeSheet_dims assets d.layers).2, ?_⟩
  · unfold generateSpritesheet
    rw [if_neg hv.1]
  · intro hmiss x y
    rw [composeSheet_pix]
    apply foldl_applyContrib_none
    intro o ho
    unfold allContribs at ho
    rw [List.mem_flatten] at ho
    obtain ⟨seg, hseg, hoseg⟩ := ho
    rw [List.mem_map] at hseg
    obtain ⟨p, _, rfl⟩ := hseg
    rw [List.mem_map] at hoseg
    obtain ⟨lay, _, rfl⟩ := hoseg
    unfold contribPixel
    rw [hmiss]

/-- C4, witness: the dimension-and-transparency guarantee at a concrete
valid definition over the all-miss asset function. -/
theorem c4_witness :
    ∃ cv, generateSpritesheet noAssets ⟨"male", [lightBody]⟩ = .ok cv ∧
      cv.width = SHEET_WIDTH ∧ cv.height = SHEET_HEIGHT ∧
      ((∀ fn an, noAssets fn an = none) → ∀ x y, cv.pix x y = transparentPx) :=
  c4_dimension_invariance noAssets ⟨"male", [lightBody]⟩ (by decide)

/-- C8 (confirmed): the pre-generation batch. Aggregates: the three summary
counters sum to the batch size and there is exactly one per-item result per
definition. Per item: a disk hit is counted `already_cached` and skipped
(store untouched); on a miss with successful rendering the item is counted
`generated` and its bytes are put into the disk store under its
fingerprint path; a rendering failure is recorded as that item's `failed`
result, leaves the store untouched, and — the loop being a fold — never
aborts the processing of the remaining items. -/
theorem c8_pregenerate_batch (render : LayerDefinition → Except String Bytes)
    (defs : List LayerDefinition) (disk : Disk) :
    ((preGenerate render defs disk).alreadyCached +
        (preGenerate render defs disk).generated +
        (preGenerate render defs disk).failed = defs.length ∧
      (preGenerate render defs disk).results.length = defs.length) ∧
    (∀ (st : PreGenState) (d : LayerDefinition),
      ((getCachedSpritesheet (readFileOf st.disk) d.bodyTypeName d.layers).hit = true →
        (preGenStep render st d).alreadyCached = st.alreadyCached + 1 ∧
        (preGenStep render st d).results = st.results ++
          [{ bodyTypeName := d.bodyTypeName, status := "already_cached"
             hash := (getCachedSpritesheet (readFileOf st.disk) d.bodyTypeName
               d.layers).hash
             size := none, error := none }] ∧
        (preGenStep render st d).disk = st.disk) ∧
      (∀ buffer,
        (getCachedSpritesheet (readFileOf st.disk) d.bodyTypeName d.layers).hit = false →
        render d = .ok buffer →
        (preGenStep render st d).generated = st.generated + 1 ∧
        (preGenStep render st d).results = st.results ++
          [{ bodyTypeName := d.bodyTypeName, status := "generated"
             hash := some (generateCacheKey d.bodyTypeName d.layers)
             size := some buffer.length, error := none }] ∧
        (preGenStep render st d).disk
          (getCachePath (generateCacheKey d.bodyTypeName d.layers)) = some buffer) ∧
      (∀ e,
        (getCachedSpritesheet (readFileOf st.disk) d.bodyTypeName d.layers).hit = false →
        render d = .error e →
        (preGenStep render st d).failed = st.failed + 1 ∧
        (preGenStep render st d).results = st.results ++
          [{ bodyTypeName := d.bodyTypeName, status := "failed"
             hash := none, size := none, error := some e }] ∧
        (preGenStep render st d).disk = st.disk)) ∧
    (∀ (d : LayerDefinition) (ds : List LayerDefinition) (st : PreGenState),
      (d :: ds).foldl (preGenStep render) st =
        ds.foldl (preGenStep render) (preGenStep render st d)) := by
  refine ⟨⟨?_, ?_⟩, ?_, fun _ _ _ => rfl⟩
  · have h := (preGen_counts render defs
      { disk := disk, results := [], generated := 0, alreadyCached := 0, failed := 0 }).1
    simpa [preGenerate] using h
  · have h := (preGen_counts render defs
      { disk := disk, results := [], generated := 0, alreadyCached := 0, failed := 0 }).2
    simpa [preGenerate] using h
  · intro st d
    refine ⟨?_, ?_, ?_⟩
    · intro hhit
      simp [preGenStep, hhit]
    · intro buffer hmiss hrender
      simp [preGenStep, hmiss, hrender]
    · intro e hmiss hrender
      simp [preGenStep, hmiss, hrender]

/-- A batch definition the concrete test renderer refuses to render. -/
def rBad : LayerDefinition := ⟨"orc", [dupC]⟩

/-- A batch definition the concrete test renderer renders. -/
def rGood : LayerDefinition := ⟨"male", [lightBody]⟩

/-- A concrete test renderer failing exactly on the `orc` body type. -/
def wRender : LayerDefinition → Except String Bytes := fun d =>
  if d.bodyTypeName = "orc" then .error "boom" else .ok [1]

/-- The empty pre-generation state over an empty disk store. -/
def pgInit : PreGenState :=
  { disk := fun _ => none, results := [], generated := 0, alreadyCached := 0,
    failed := 0 }

/-- C8, witness: on a concrete two-item batch whose second item fails to
render, the counters still sum to the batch size, and the failing step is
recorded as a `failed` item. -/
theorem c8_witness :
    ((preGenerate wRender [rGood, rBad] (fun _ => none)).alreadyCached +
        (preGenerate wRender [rGood, rBad] (fun _ => none)).generated +
        (preGenerate wRender [rGood, rBad] (fun _ => none)).failed = 2) ∧
      (preGenStep wRender pgInit rBad).failed = pgInit.failed + 1 :=
  ⟨(c8_pregenerate_batch wRender [rGood, rBad] (fun _ => none)).1.1,
    (((c8_pregenerate_batch wRender [rGood, rBad] (fun _ => none)).2.1 pgInit
      rBad).2.2 "boom" rfl rfl).1⟩

/-- C9 (confirmed): the engine draws layers in ascending `zPos` (stable
sort), so for two layers `A` and `B` of the rendered definition with
`A.zPos < B.zPos` that both deposit an opaque pixel at the same coordinate
of the animation row `(anim, yp)` — and no other draw touches that
coordinate with a non-transparent pixel — the final sheet shows `B`'s
pixel: `B` is drawn after `A`, on top. -/
theorem c9_zorder_top_layer_wins (assets : AssetFn) (d : LayerDefinition)
    (cv : Canvas) (A B : Layer) (anim : String) (yp x y : Nat) (pxA pxB : Pixel)
    (hok : generateSpritesheet assets d = .ok cv)
    (hA : A ∈ d.layers) (hB : B ∈ d.layers)
    (hz : A.zPos < B.zPos)
    (hanim : (anim, yp) ∈ ANIMATION_OFFSETS)
    (hcA : contribPixel assets anim yp x y A = some pxA) (hoA : pxA.a = 255)
    (hcB : contribPixel assets anim yp x y B = some pxB) (hoB : pxB.a = 255)
    (honly : contribOnly assets d.layers anim yp x y A B = true) :
    cv.pix x y = pxB := by
  have hcv : cv = composeSheet assets d.layers := by
    unfold generateSpritesheet at hok
    by_cases h : d.bodyTypeName = ""
    · rw [if_pos h] at hok
      cases hok
    · rw [if_neg h] at hok
      injection hok with h₁
      exact h₁.symm
  subst hcv
  rw [composeSheet_pix]
  have hBS : B ∈ sortLayers d.layers :=
    (List.perm_insertionSort zPosLe d.layers).mem_iff.mpr hB
  obtain ⟨s₁, s₂, hSsplit, hBnot⟩ := mem_split_last hBS
  obtain ⟨a₁, a₂, hQsplit, hQnot⟩ := mem_split_last hanim
  have hsorted : List.Sorted zPosLe (sortLayers d.layers) :=
    List.sorted_insertionSort zPosLe d.layers
  have hs₂ : ∀ l ∈ s₂, zPosLe B l := by
    rw [hSsplit] at hsorted
    exact (List.pairwise_cons.mp (List.pairwise_append.mp hsorted).2.1).1
  have hmemS : ∀ l, l ∈ sortLayers d.layers → l ∈ d.layers := fun l hl =>
    (List.perm_insertionSort zPosLe d.layers).mem_iff.mp hl
  have hspec := contribOnly_spec honly
  unfold allContribs
  rw [hQsplit, hSsplit]
  simp only [List.map_append, List.map_cons, List.flatten_append,
    List.flatten_cons]
  rw [hcB]
  have hassoc :
      ∀ (j₁ m₁ m₂ j₂ : List (Option Pixel)) (b : Option Pixel),
        j₁ ++ ((m₁ ++ b :: m₂) ++ j₂) = (j₁ ++ m₁) ++ b :: (m₂ ++ j₂) := by
    intro j₁ m₁ m₂ j₂ b
    simp [List.append_assoc]
  rw [hassoc]
  apply foldl_applyContrib_opaque_last _ _ pxB transparentPx hoB
  intro o ho s hos
  by_contra hsa
  rcases List.mem_append.mp ho with hoM | hoJ
  · rw [List.mem_map] at hoM
    obtain ⟨l, hl, hlc⟩ := hoM
    have hlS : l ∈ sortLayers d.layers := by
      rw [hSsplit]
      simp [hl]
    obtain ⟨-, -, hAB⟩ :=
      hspec l (hmemS l hlS) (anim, yp) hanim s (hlc.trans hos) hsa
    rcases hAB with rfl | rfl
    · have hle := hs₂ _ hl
      unfold zPosLe at hle
      omega
    · exact hBnot hl
  · rw [List.mem_flatten] at hoJ
    obtain ⟨seg, hseg, hoseg⟩ := hoJ
    rw [List.mem_map] at hseg
    obtain ⟨p, hp, rfl⟩ := hseg
    have hoseg₂ : o ∈ List.map (contribPixel assets p.1 p.2 x y) (s₁ ++ B :: s₂) := by
      simpa [List.map_append, List.map_cons] using hoseg
    rw [List.mem_map] at hoseg₂
    obtain ⟨l, hlin, hlc⟩ := hoseg₂
    have hlS : l ∈ sortLayers d.layers := by
      rw [hSsplit]
      exact hlin
    have hpO : p ∈ ANIMATION_OFFSETS := by
      rw [hQsplit]
      simp [hp]
    obtain ⟨h₁, h₂, -⟩ :=
      hspec l (hmemS l hlS) p hpO s (hlc.trans hos) hsa
    have hpq : p = (anim, yp) := by
      cases p
      simp only at h₁ h₂
      rw [h₁, h₂]
    exact hQnot (hpq ▸ hp)

/-- A fully opaque red 832 x 64 sprite row. -/
def imgRed : Img := ⟨832, 64, fun _ _ => ⟨255, 0, 0, 255⟩⟩

/-- A fully opaque green 832 x 64 sprite row. -/
def imgGreen : Img := ⟨832, 64, fun _ _ => ⟨0, 255, 0, 255⟩⟩

/-- A concrete asset function providing only the `walk` row of two layers. -/
def wAssets : AssetFn := fun fn an =>
  if an = "walk" then
    if fn = "body/base.png" then some imgRed
    else if fn = "hair/top.png" then some imgGreen
    else none
  else none

/-- The lower (background) layer of the z-order scenario. -/
def wBody : Layer := ⟨"body/base.png", 1, "v"⟩

/-- The upper (foreground) layer of the z-order scenario. -/
def wHair : Layer := ⟨"hair/top.png", 10, "w"⟩

/-- The z-order scenario definition, with the layers given in REVERSED
input order so the `zPos` sort matters. -/
def wDef : LayerDefinition := ⟨"male", [wHair, wBody]⟩

/-- C9, witness: both layers deposit opaque pixels at `(0, 512)` of the
`walk` row (offset 8 x 64 = 512); the sheet shows the green pixel of the
higher-`zPos` hair layer although it comes first in input order. -/
theorem c9_witness :
    ∃ cv, generateSpritesheet wAssets wDef = .ok cv ∧
      cv.pix 0 512 = ⟨0, 255, 0, 255⟩ :=
  ⟨composeSheet wAssets wDef.layers, rfl,
    c9_zorder_top_layer_wins wAssets wDef (composeSheet wAssets wDef.layers)
      wBody wHair "walk" 512 0 512 ⟨255, 0, 0, 255⟩ ⟨0, 255, 0, 255⟩ rfl
      (by decide) (by decide) (by decide) (by decide) (by decide) rfl
      (by decide) rfl (by decide)⟩
